import Mathlib

/-!
Verification development for the AudioTranscriber job-orchestration core
(`app.py`, `models.py`, `utils/youtube_processor.py`).

The Python source is shallowly embedded: each background worker becomes a
pure Lean function over explicit inputs standing for the external
collaborators (the Whisper transcription service, the YouTube transcript
API, the media downloader, the output renderer).  Collaborator behaviour
is an input of the embedding: a call that can raise is modelled by an
`Except String _` value carrying either the returned payload or the text
of the raised exception.
-/

/-- In-memory progress record: one entry of the module-level
`processing_progress` dictionary (`app.py` line 312).  The fields mirror
the keys written at `app.py` lines 321-329: `status`, `progress`,
`message` and `result` (the `result` dict holds only a `text` key, so it
is modelled as `Option String`).  The timing keys (`start_time`,
`file_duration`, `processed_duration`) only feed the human-readable
duration suffix of the status endpoint, which is wall-clock dependent and
is therefore passed to the endpoint embedding as an oracle string. -/
structure ProgressRecord where
  status : String
  progress : Nat
  message : String
  result : Option String
  deriving DecidableEq, Repr

/-- Record inserted by `process_audio_files_directly` at submission time
(`app.py` lines 321-329): status `processing`, progress `0`. -/
def initialDirectRecord : ProgressRecord :=
  { status := "processing", progress := 0, message := "Starting...", result := none }

/-- Record inserted by the YouTube branch of `api_process` at submission
time (`app.py` lines 668-674): status `processing`, progress `0`. -/
def initialYoutubeRecord : ProgressRecord :=
  { status := "processing", progress := 0,
    message := "Starting YouTube processing...", result := none }

/-- Outcome of processing one saved file inside the per-file `try` of
`process_async` (`app.py` lines 362-435).  The per-file body converts the
file, transcribes it (appending the text at line 409) and then saves the
text to disk; an exception anywhere in the body is caught at line 431 and
recorded as an inline error string.
* `transcribed text`: transcription and save both succeed; the file
  contributes `text`.
* `saveFailed text err`: transcription succeeds (so `text` was already
  appended at line 409) but the save step raises `err`, so the except
  block appends an error marker as well — two contributions.
* `failed err`: conversion or transcription raises `err` before the
  append at line 409 — the only contribution is the error marker. -/
inductive FileResult where
  | transcribed (text : String)
  | saveFailed (text : String) (err : String)
  | failed (err : String)
  deriving DecidableEq, Repr

/-- One saved input file of a direct (in-memory) transcription job:
its original filename, the `(processed_seconds, total_seconds)` events
delivered to `update_transcription_progress` during its transcription
(`app.py` lines 394-398), and the outcome of its per-file body. -/
structure FileInput where
  name : String
  callbacks : List (Nat × Nat)
  result : FileResult
  deriving DecidableEq, Repr

/-- Inline error marker appended by `process_async` when a file's body
raises (`app.py` line 433): it names the failing file. -/
def directMarker (name err : String) : String :=
  "Error processing " ++ name ++ ": " ++ err

/-- Strings appended to `all_transcriptions` for one file of a direct job
(`app.py` lines 409 and 433). -/
def fileContribution (f : FileInput) : List String :=
  match f.result with
  | FileResult.transcribed t => [t]
  | FileResult.saveFailed t e => [t, directMarker f.name e]
  | FileResult.failed e => [directMarker f.name e]

/-- Final contents of `all_transcriptions` after the file loop of
`process_async` (`app.py` lines 356-435). -/
def process_async_transcriptions (files : List FileInput) : List String :=
  files.flatMap fileContribution

/-- Embedding of Python `sep.join(xs)`. -/
def joinSep (sep : String) : List String → String
  | [] => ""
  | [x] => x
  | x :: y :: rest => x ++ sep ++ joinSep sep (y :: rest)

/-- Result text computed at `app.py` line 437:
`'\n\n'.join(all_transcriptions) if all_transcriptions else
"No transcriptions generated"`. -/
def process_async_result_text (files : List FileInput) : String :=
  let ts := process_async_transcriptions files
  if ts.isEmpty then "No transcriptions generated" else joinSep "\n\n" ts

/-- Final progress record written by a fault-free run of `process_async`
(`app.py` lines 440-443): status `completed`, progress `100`, the result
text as computed at line 437. -/
def process_async_final (files : List FileInput) : ProgressRecord :=
  { status := "completed", progress := 100,
    message := "Transcription completed!",
    result := some (process_async_result_text files) }

/-- Progress values written for one file of a direct job: the start-of-file
write `20 + (current_file - 1) * 60 // total_files` (`app.py` line 359,
with 0-based index `i`), followed by one write per callback event
`(p, t)` with `t > 0`, namely `20 + int((p / t) * 60)` (`app.py` lines
394-398; `int` truncation on a nonnegative quotient is floor, embedded as
natural-number division). -/
def fileProgressWrites (total : Nat) (i : Nat) (f : FileInput) : List Nat :=
  (20 + i * 60 / total) ::
    f.callbacks.filterMap (fun pt =>
      if pt.2 > 0 then some (20 + pt.1 * 60 / pt.2) else none)

/-- The full sequence of values taken by `progress` over a fault-free run
of a direct job: `0` at record creation (`app.py` line 323), `10` at the
start of the thread body (line 350), the per-file writes, and `100` at
completion (line 441). -/
def process_async_trace (files : List FileInput) : List Nat :=
  0 :: 10 ::
    ((List.range files.length).zip files).flatMap
      (fun p => fileProgressWrites files.length p.1 p.2)
    ++ [100]

/-- Exception handler of `process_async` (`app.py` lines 445-448): any
exception escaping the body sets status `failed` and the message
`Error: ...`; `progress` and `result` are left as they were. -/
def process_async_catch (st : ProgressRecord) (e : String) : ProgressRecord :=
  { st with status := "failed", message := "Error: " ++ e }

/-- Boolean check that a list of naturals is non-decreasing, used to state
the spec's monotone-progress property over a trace. -/
def nonDecreasing : List Nat → Bool
  | [] => true
  | [_] => true
  | a :: b :: rest => Nat.ble a b && nonDecreasing (b :: rest)

-- Helper lemmas about string emptiness used to settle truthiness checks
-- (`if job.result_text and ...`) and non-emptiness claims.

theorem string_append_ne_empty_left (a b : String) (h : a ≠ "") : a ++ b ≠ "" := by
  intro hab
  apply h
  cases a with
  | mk da =>
    cases b with
    | mk db =>
      have hdata : da ++ db = [] := congrArg String.data hab
      have hda : da = [] := (List.append_eq_nil.mp hdata).1
      simp [hda]

theorem string_append_ne_empty_right (a b : String) (h : b ≠ "") : a ++ b ≠ "" := by
  intro hab
  apply h
  cases a with
  | mk da =>
    cases b with
    | mk db =>
      have hdata : da ++ db = [] := congrArg String.data hab
      have hdb : db = [] := (List.append_eq_nil.mp hdata).2
      simp [hdb]

/-- A separated join is non-empty as soon as one of its elements is. -/
theorem joinSep_ne_empty (sep : String) (l : List String) (x : String)
    (hx : x ∈ l) (hne : x ≠ "") : joinSep sep l ≠ "" := by
  induction l with
  | nil => cases hx
  | cons a rest ih =>
    cases rest with
    | nil =>
      have hxa : x = a := by
        rcases List.mem_cons.mp hx with h | h
        · exact h
        · cases h
      simpa [joinSep, ← hxa] using hne
    | cons b rest' =>
      show a ++ sep ++ joinSep sep (b :: rest') ≠ ""
      rcases List.mem_cons.mp hx with h | h
      · subst h
        exact string_append_ne_empty_left _ _
          (string_append_ne_empty_left _ _ hne)
      · exact string_append_ne_empty_right _ _ (ih h)

/-- Durable job record, mirroring the `ProcessingJob` model
(`models.py` lines 7-36).  Only the columns the orchestration core reads
or writes are kept: `job_type`, `input_type`, `input_text` (for TTS),
`output_formats`, `status` (default `pending`), `progress_percentage`
(default `0`), `result_text`, `result_files` and `error_message`. -/
structure Job where
  job_type : String
  input_type : String
  input_text : String
  output_formats : List String
  status : String
  progress_percentage : Nat
  result_text : Option String
  result_files : List String
  error_message : Option String
  deriving DecidableEq, Repr

/-- Job record as created by `api_process` (`app.py` lines 741-748 for a
TTS job, lines 606-614 for a file job): caller-chosen type fields,
`status = 'pending'`, and the model defaults `progress_percentage = 0`
(`models.py` line 28) and empty results. -/
def newProcessingJob (jt it itext : String) (formats : List String) : Job :=
  { job_type := jt, input_type := it, input_text := itext,
    output_formats := formats, status := "pending", progress_percentage := 0,
    result_text := none, result_files := [], error_message := none }

/-- First mutation performed by `process_job_worker` once it starts
(`app.py` lines 964-966): status `processing`, progress `10`. -/
def workerStart (j : Job) : Job :=
  { j with status := "processing", progress_percentage := 10 }

/-- Inline error marker appended by the file branch of
`process_job_worker` when one file's body raises (`app.py` line 1007).
Unlike `directMarker`, it does not mention the failing file. -/
def workerMarker (err : String) : String :=
  "Error processing file: " ++ err

/-- Contents of `all_transcriptions` after the file loop of
`process_job_worker` (`app.py` lines 976-1007): per saved file, either the
transcribed text or the generic error marker.  Each entry of `outs` is a
file path paired with its Whisper outcome. -/
def workerTranscriptions (outs : List (String × Except String String)) : List String :=
  outs.map (fun po =>
    match po.2 with
    | Except.ok t => t
    | Except.error e => workerMarker e)

/-- Result files produced by the output-rendering loop of
`process_job_worker` (`app.py` lines 1174-1185): one render attempt per
requested format except `mp3`; a render that raises is logged and its
file omitted.  `render` is the rendering collaborator: basename of the
generated file, or the raised error. -/
def renderFiles (formats : List String) (render : String → Except String String) : List String :=
  formats.filterMap (fun ft =>
    if ft == "mp3" then none
    else match render ft with
      | Except.ok f => some f
      | Except.error _ => none)

/-- Truthiness of `job.result_text` in `if job.result_text and
job.output_formats:` (`app.py` line 1166): not `None` and not empty. -/
def resultTextTruthy : Option String → Bool
  | none => false
  | some s => !(s == "")

/-- Fault-free run of the `input_type == 'file'` transcription branch of
`process_job_worker` (`app.py` lines 956-1192) for a job with no LLM
metadata (so the LLM block at lines 1099-1160 is a no-op).  The per-file
loop catches its own exceptions (lines 1005-1007), so the branch reaches
the completion writes at lines 1187-1192 on every run: the result text is
joined at line 1009 (only when `file_paths` is non-empty, per the guard at
line 972), files are rendered at lines 1174-1185, and the job ends
`completed` with progress `100`. -/
def process_job_worker_files_final (j : Job) (outs : List (String × Except String String))
    (render : String → Except String String) : Job :=
  let j1 := workerStart j
  let j2 :=
    if outs.isEmpty then j1
    else { j1 with result_text := some (joinSep "\n\n" (workerTranscriptions outs)) }
  let j3 := { j2 with progress_percentage := 80 }
  let files :=
    if resultTextTruthy j3.result_text && !j3.output_formats.isEmpty then
      renderFiles j3.output_formats render
    else []
  { j3 with status := "completed", progress_percentage := 100, result_files := files }

/-- Body of the `job_type == 'tts'` branch of `process_job_worker`
(`app.py` lines 1075-1082 plus the shared completion code), returning
either the completed job or the raised exception text paired with the job
state as last committed before the raise.  `tts` is the text-to-speech
collaborator (`convert_text_to_speech`): the basename of the generated
audio file, or the raised error. -/
def worker_body_tts (j : Job) (tts : Except String String)
    (render : String → Except String String) : Except (String × Job) Job :=
  let j1 := workerStart j
  let j2 := { j1 with progress_percentage := 40 }
  match tts with
  | Except.error e => Except.error (e, j2)
  | Except.ok audioFile =>
    let rt := "Speech generated from " ++ toString j.input_text.length ++ " characters of text"
    let j3 := { j2 with result_text := some rt }
    let j4 := { j3 with progress_percentage := 80 }
    let extra :=
      if resultTextTruthy j4.result_text && !j4.output_formats.isEmpty then
        renderFiles j4.output_formats render
      else []
    Except.ok { j4 with
                status := "completed",
                progress_percentage := 100,
                result_files := [audioFile] ++ extra }

/-- Top-level exception handler of `process_job_worker` (`app.py` lines
1194-1201): on an exception `e` escaping the body it re-reads the job and
commits status `failed` with `error_message = e`.  That recovery commit is
itself a database write and can fail (`db.session.commit()` raising is
handled as a live possibility throughout `app.py`); `commitOk` is true
when it succeeds.  When it fails, the exception escapes the worker thread
and the job record keeps its last committed state. -/
def worker_recover (r : Except (String × Job) Job) (commitOk : Bool) : Job :=
  match r with
  | Except.ok j => j
  | Except.error pe =>
    if commitOk then { pe.2 with status := "failed", error_message := some pe.1 }
    else pe.2

/-- Full run of `process_job_worker` on a TTS job: body plus top-level
handler. -/
def process_job_worker_tts_run (j : Job) (tts : Except String String)
    (render : String → Except String String) (commitOk : Bool) : Job :=
  worker_recover (worker_body_tts j tts render) commitOk

/-- Response shape of the job-status endpoint `api_job_status`
(`app.py` lines 777-859). -/
structure JobStatusResponse where
  status : String
  progress_percentage : Nat
  status_message : String
  result_text : Option String
  result_files : List String
  error_message : Option String
  deriving DecidableEq, Repr

/-- In-memory branch of `api_job_status` (`app.py` lines 781-824): the
response copies status and progress from the progress record, appends the
wall-clock-dependent duration/ETA suffix (lines 789-813; passed in as the
oracle `durationInfo`, empty when `file_duration` is unset) to the
message, projects `result['text']`, and always reports `result_files =
[]` and `error_message = None` (lines 821-822). -/
def api_job_status_mem (p : ProgressRecord) (durationInfo : String) : JobStatusResponse :=
  { status := p.status, progress_percentage := p.progress,
    status_message := p.message ++ durationInfo,
    result_text := p.result, result_files := [], error_message := none }

/-- Database branch of `api_job_status` (`app.py` lines 837-855): fields
are copied from the job record; `status_message` is a fixed label per
status. -/
def api_job_status_db (j : Job) : JobStatusResponse :=
  { status := j.status, progress_percentage := j.progress_percentage,
    status_message :=
      if j.status == "pending" then "Waiting to start..."
      else if j.status == "processing" then "Processing in progress..."
      else if j.status == "completed" then "Processing completed!"
      else if j.status == "failed" then "Processing failed"
      else "Unknown status",
    result_text := j.result_text, result_files := j.result_files,
    error_message := j.error_message }

/-- Return value of `get_youtube_transcript`
(`utils/youtube_processor.py` lines 42-109): either the success dict
`{'success': True, 'text': ..., 'language': ..., 'is_generated': ...}` or
the failure dict `{'success': False, 'error': ...}`. -/
inductive TResult where
  | ok (text : String) (language : String) (is_generated : Bool)
  | err (msg : String)
  deriving DecidableEq, Repr

/-- Combined outcome of the transcript-API interactions inside the `try`
of `get_youtube_transcript` (`utils/youtube_processor.py` lines 61-91):
either some transcript object is found and fetched (its language code,
generated flag and text segments), or every lookup comes back empty, or
one of the calls raises with the given exception text. -/
inductive TranscriptLookup where
  | found (langCode : String) (generated : Bool) (entries : List String)
  | noneAvailable
  | raised (err : String)
  deriving DecidableEq, Repr

/-- Text assembly of `get_youtube_transcript`
(`utils/youtube_processor.py` lines 94-97): join the segments with
spaces, replace newlines by spaces, strip surrounding whitespace. -/
def cleanTranscriptText (entries : List String) : String :=
  ((joinSep " " entries).map (fun c => if c = '\n' then ' ' else c)).trim

/-- Embedding of `get_youtube_transcript`
(`utils/youtube_processor.py` lines 42-109).  `videoId` is the result of
`extract_video_id(url)` (`None` for an unrecognised URL).  The whole body
is inside `try/except`, so the function never raises: the catch-all at
line 109 returns `{'success': False, 'error': str(e)}`. -/
def get_youtube_transcript (videoId : Option String) (lookup : TranscriptLookup) : TResult :=
  match videoId with
  | none => TResult.err "Invalid YouTube URL"
  | some _ =>
    match lookup with
    | TranscriptLookup.raised e => TResult.err e
    | TranscriptLookup.noneAvailable => TResult.err "No transcript available for this video"
    | TranscriptLookup.found lang gen entries =>
      TResult.ok (cleanTranscriptText entries) lang gen

/-- Outcome of `download_youtube_video(source_url, folder)` as observed by
`process_youtube_directly` (`app.py` lines 495-497): a path that exists on
disk, a return value that is `None` or a non-existent path, or a raised
exception. -/
inductive DownloadResult where
  | fileAt (path : String)
  | missing
  | raised (err : String)
  deriving DecidableEq, Repr

/-- Observable outcome of one run of `process_youtube_directly`: the
result text (or the text of the exception the function raises), the
number of calls made to the media-download collaborator, and the
`transcript_sources` provenance tags accumulated at `app.py` lines
481 and 508. -/
structure YoutubeRun where
  result : Except String String
  downloadCalls : Nat
  sources : List String
  deriving Repr

/-- Aggregated failure raised at `app.py` line 524 when the fallback
download/transcription path itself fails. -/
def ytFallbackFailMsg (e : String) : String :=
  "Failed to get transcript: No YouTube transcript available and video download/transcription failed: " ++ e

/-- Failure raised at `app.py` line 528 when no transcription was
obtained and the fallback was not (or not successfully) taken. -/
def ytNoTranscriptMsg : String :=
  "No YouTube transcript available for this video and audio transcription was not enabled."

/-- Embedding of `process_youtube_directly` (`app.py` lines 462-564).
Control flow of the source: `transcribe_audio` is forced to `False` at
line 471 regardless of the caller's options; if `pullTranscript` (default
true) the transcript extraction runs first; on its success the text and a
`YouTube Transcript (<language>)` tag are recorded and, the fallback
guard `not all_transcriptions and transcribe_audio` (line 490) being
false, no download happens; on its failure `transcribe_audio` is set to
`True` (line 487) and the fallback downloads the media once and
transcribes it; any fallback failure is re-raised as the aggregated
message of line 524; with no transcriptions at all, line 528 raises.
With a single transcription the result text is that transcription
unchanged (line 539); the multi-source formatting of lines 533-537 is
unreachable here because the fallback only runs when `all_transcriptions`
is empty.  `wres` is the Whisper collaborator outcome on the downloaded
file. -/
def process_youtube_directly (pullTranscript : Bool) (tres : TResult)
    (dres : DownloadResult) (wres : Except String String) : YoutubeRun :=
  let extracted : Option (String × String) :=
    if pullTranscript then
      match tres with
      | TResult.ok t lang _ => some (t, "YouTube Transcript (" ++ lang ++ ")")
      | TResult.err _ => none
    else none
  let transcribeAudio : Bool :=
    pullTranscript &&
      (match tres with
       | TResult.err _ => true
       | TResult.ok _ _ _ => false)
  match extracted with
  | some te => { result := Except.ok te.1, downloadCalls := 0, sources := [te.2] }
  | none =>
    if transcribeAudio then
      match dres with
      | DownloadResult.raised e =>
        { result := Except.error (ytFallbackFailMsg e), downloadCalls := 1, sources := [] }
      | DownloadResult.missing =>
        { result := Except.error ytNoTranscriptMsg, downloadCalls := 1, sources := [] }
      | DownloadResult.fileAt _ =>
        match wres with
        | Except.error e =>
          { result := Except.error (ytFallbackFailMsg e), downloadCalls := 1, sources := [] }
        | Except.ok t =>
          { result := Except.ok t, downloadCalls := 1,
            sources := ["Video Transcription (Whisper)"] }
    else { result := Except.error ytNoTranscriptMsg, downloadCalls := 0, sources := [] }

/-- Embedding of the `process_youtube_async` worker spawned by
`api_process` (`app.py` lines 676-712), returning the final progress
record and the number of calls to `download_youtube_video`.  On a
successful extraction the record jumps straight to `completed` at
progress 100 (lines 683-686; the message is left at the line-679 value).
Otherwise the video is downloaded (progress 30) and transcribed (progress
50); an exception from either collaborator hits the handler at lines
706-709, which sets status `failed` and the exception text as the
message.  `dres` is the downloader outcome (returned path or raised
error) and `wres` the Whisper outcome. -/
def process_youtube_async_run (tres : TResult) (dres : Except String String)
    (wres : Except String String) : ProgressRecord × Nat :=
  match tres with
  | TResult.ok t _ _ =>
    ({ status := "completed", progress := 100,
       message := "Checking for existing transcript...", result := some t }, 0)
  | TResult.err _ =>
    match dres with
    | Except.error e =>
      ({ status := "failed", progress := 30, message := e, result := none }, 1)
    | Except.ok _ =>
      match wres with
      | Except.error e =>
        ({ status := "failed", progress := 50, message := e, result := none }, 1)
      | Except.ok t =>
        ({ status := "completed", progress := 100,
           message := "Transcribing...", result := some t }, 1)

-- Substring test used to formalise "the error marker names the file".

/-- Boolean test that `hay` starts with `needle` (on character lists). -/
def charsLead : List Char → List Char → Bool
  | _, [] => true
  | [], _ :: _ => false
  | a :: as, b :: bs => a == b && charsLead as bs

/-- Boolean test that `needle` occurs somewhere inside `hay` (on
character lists). -/
def charsHasSub : List Char → List Char → Bool
  | [], needle => charsLead [] needle
  | a :: t, needle => charsLead (a :: t) needle || charsHasSub t needle

/-- Boolean test that the string `needle` occurs inside `hay`. -/
def strContains (hay needle : String) : Bool :=
  charsHasSub hay.data needle.data

theorem charsLead_append (a b : List Char) : charsLead (a ++ b) a = true := by
  induction a with
  | nil => cases b <;> rfl
  | cons x xs ih => simp [charsLead, ih]

theorem charsHasSub_append (p n s : List Char) :
    charsHasSub (p ++ (n ++ s)) n = true := by
  induction p with
  | nil =>
    cases hns : n ++ s with
    | nil =>
      have hn : n = [] := (List.append_eq_nil.mp hns).1
      simp [hn, charsHasSub, charsLead]
    | cons x t =>
      have : charsLead (n ++ s) n = true := charsLead_append n s
      rw [hns] at this
      simp [charsHasSub, this]
  | cons a p' ih =>
    simp [charsHasSub, ih]

/-- A string built as `before ++ name ++ after` contains `name`. -/
theorem strContains_middle (before name after : String) :
    strContains (before ++ name ++ after) name = true := by
  show charsHasSub (before ++ name ++ after).data name.data = true
  have hdata : (before ++ name ++ after).data
      = before.data ++ (name.data ++ after.data) := by
    cases before; cases name; cases after
    simp [String.data]
  rw [hdata]
  exact charsHasSub_append _ _ _

-- Abbreviations for building concrete job inputs in the statements below.

/-- A direct-job input file whose transcription (and save) succeeds with
the given text. -/
def trFile (p : String × String) : FileInput :=
  { name := p.1, callbacks := [], result := FileResult.transcribed p.2 }

/-- A direct-job input file whose per-file body raises the given error. -/
def failFile (p : String × String) : FileInput :=
  { name := p.1, callbacks := [], result := FileResult.failed p.2 }

/-- A worker-job file path whose Whisper call returns the given text. -/
def okOut (p : String × String) : String × Except String String :=
  (p.1, Except.ok p.2)

/-- A worker-job file path whose Whisper call raises the given error. -/
def errOut (p : String × String) : String × Except String String :=
  (p.1, Except.error p.2)

theorem transcriptions_append (a b : List FileInput) :
    process_async_transcriptions (a ++ b)
      = process_async_transcriptions a ++ process_async_transcriptions b := by
  simp [process_async_transcriptions]

theorem transcriptions_cons (f : FileInput) (l : List FileInput) :
    process_async_transcriptions (f :: l)
      = fileContribution f ++ process_async_transcriptions l := by
  simp [process_async_transcriptions]

theorem transcriptions_trFiles (l : List (String × String)) :
    process_async_transcriptions (l.map trFile) = l.map Prod.snd := by
  induction l with
  | nil => rfl
  | cons a t ih =>
    simp only [List.map_cons, transcriptions_cons, ih]
    rfl

theorem transcriptions_failFiles (l : List (String × String)) :
    process_async_transcriptions (l.map failFile)
      = l.map (fun p => directMarker p.1 p.2) := by
  induction l with
  | nil => rfl
  | cons a t ih =>
    simp only [List.map_cons, transcriptions_cons, ih]
    rfl

theorem workerTranscriptions_okOuts (l : List (String × String)) :
    workerTranscriptions (l.map okOut) = l.map Prod.snd := by
  simp [workerTranscriptions, List.map_map]
  intro a b _
  rfl

theorem workerTranscriptions_errOuts (l : List (String × String)) :
    workerTranscriptions (l.map errOut) = l.map (fun p => workerMarker p.2) := by
  simp [workerTranscriptions, List.map_map]
  intro a b _
  rfl

/-- C1 (counterexample).  The claim "status `completed` implies
`result_text` non-empty or `result_files` non-empty" fails on the code: a
direct job with one file whose transcription returns the empty string
(a legal collaborator outcome, e.g. a silent recording) completes with
`result_text = ''` and `result_files = []` at the status endpoint. -/
theorem C1_counterexample :
    (api_job_status_mem (process_async_final
        [{ name := "silence.wav", callbacks := [], result := FileResult.transcribed "" }]) "").status
      = "completed" ∧
    (api_job_status_mem (process_async_final
        [{ name := "silence.wav", callbacks := [], result := FileResult.transcribed "" }]) "").progress_percentage
      = 100 ∧
    (api_job_status_mem (process_async_final
        [{ name := "silence.wav", callbacks := [], result := FileResult.transcribed "" }]) "").result_text
      = some "" ∧
    (api_job_status_mem (process_async_final
        [{ name := "silence.wav", callbacks := [], result := FileResult.transcribed "" }]) "").result_files
      = [] := by
  exact ⟨rfl, rfl, rfl, rfl⟩

/-- C1 (amended).  Every job that completes does so with progress 100, in
both the in-memory path (`process_async`, `app.py` lines 440-441) and the
database worker (`app.py` lines 1188-1189); and its result text is
non-empty provided at least one per-file contribution (transcribed text
or inline error marker) is non-empty — in particular whenever any file
fails, since markers are never empty — while a job with no contributions
at all completes with the fixed non-empty text
`No transcriptions generated` in the direct path.  The sole gap, forced
by the counterexample, is a job all of whose transcriptions return empty
text. -/
theorem C1_theorem (files : List FileInput) (j : Job)
    (outs : List (String × Except String String))
    (render : String → Except String String) :
    ((process_async_final files).status = "completed" ∧
      (process_async_final files).progress = 100) ∧
    (process_async_transcriptions files = [] →
      process_async_result_text files = "No transcriptions generated") ∧
    ((∃ c ∈ process_async_transcriptions files, c ≠ "") →
      process_async_result_text files ≠ "") ∧
    ((process_job_worker_files_final j outs render).status = "completed" ∧
      (process_job_worker_files_final j outs render).progress_percentage = 100) ∧
    (outs ≠ [] →
      (process_job_worker_files_final j outs render).result_text
        = some (joinSep "\n\n" (workerTranscriptions outs))) ∧
    ((∃ c ∈ workerTranscriptions outs, c ≠ "") →
      joinSep "\n\n" (workerTranscriptions outs) ≠ "") := by
  refine ⟨⟨rfl, rfl⟩, ?_, ?_, ⟨rfl, rfl⟩, ?_, ?_⟩
  · intro h
    simp [process_async_result_text, h]
  · rintro ⟨c, hc, hne⟩
    have hnil : process_async_transcriptions files ≠ [] := List.ne_nil_of_mem hc
    have hif : process_async_result_text files
        = joinSep "\n\n" (process_async_transcriptions files) := by
      simp [process_async_result_text, List.isEmpty_eq_false.mpr hnil]
    rw [hif]
    exact joinSep_ne_empty _ _ _ hc hne
  · intro h
    simp [process_job_worker_files_final, workerStart, List.isEmpty_eq_false.mpr h]
  · rintro ⟨c, hc, hne⟩
    exact joinSep_ne_empty _ _ _ hc hne

/-- C1 (witness).  Instantiation of `C1_theorem` at a one-file direct job
whose file fails and a one-file worker job. -/
theorem C1_witness :
    process_async_result_text
        [{ name := "a.wav", callbacks := [], result := FileResult.failed "boom" }] ≠ "" ∧
    (process_job_worker_files_final (newProcessingJob "transcription" "file" "" ["text"])
        [("f1.wav", Except.error "boom")] (fun _ => Except.error "render down")).result_text
      = some (joinSep "\n\n" (workerTranscriptions [("f1.wav", Except.error "boom")])) := by
  have h := C1_theorem
    [{ name := "a.wav", callbacks := [], result := FileResult.failed "boom" }]
    (newProcessingJob "transcription" "file" "" ["text"])
    [("f1.wav", Except.error "boom")]
    (fun _ => Except.error "render down")
  refine ⟨h.2.2.1 ⟨directMarker "a.wav" "boom", ?_, by decide⟩, h.2.2.2.2.1 (by simp)⟩
  simp [process_async_transcriptions, fileContribution]

/-- C2 (code bug).  The spec requires progress to be non-decreasing, with
file *i* of *N* confined to its own sub-range of the transcribe budget,
but the source's progress callback (`app.py` lines 394-398) maps
sub-progress onto the whole 20-80 range regardless of the file index.
Concretely, for a 2-file job where the callback during file 1 reports
`processed_seconds = total_seconds` (= 30), the progress writes are
`[0, 10, 20, 80, 50, 100]`: the callback reaches 80 and the start of
file 2 (line 359) then drops progress back to `20 + 60 // 2 = 50`. -/
theorem C2_theorem :
    process_async_trace
        [{ name := "part1.wav", callbacks := [(30, 30)],
           result := FileResult.transcribed "first" },
         { name := "part2.wav", callbacks := [],
           result := FileResult.transcribed "second" }]
      = [0, 10, 20, 80, 50, 100] ∧
    nonDecreasing (process_async_trace
        [{ name := "part1.wav", callbacks := [(30, 30)],
           result := FileResult.transcribed "first" },
         { name := "part2.wav", callbacks := [],
           result := FileResult.transcribed "second" }])
      = false := by
  exact ⟨by decide, by decide⟩

/-- C3 (counterexample).  The claim "if the primary transcription step
fails for every input file, the job ends `failed`" is false on the code:
per-file failures are captured inline (`app.py` lines 431-433) and the
loop always falls through to the completion writes (lines 440-443), so a
2-file direct job where both transcriptions raise still ends
`completed`. -/
theorem C3_counterexample :
    (process_async_final
        [failFile ("a.wav", "whisper unavailable"),
         failFile ("b.wav", "whisper unavailable")]).status = "completed" ∧
    (process_async_final
        [failFile ("a.wav", "whisper unavailable"),
         failFile ("b.wav", "whisper unavailable")]).status ≠ "failed" := by
  exact ⟨rfl, by decide⟩

/-- C3 (amended).  A multi-file transcription job all of whose files fail
still ends in status `completed`, with a result text that is exactly the
double-newline join of the per-file inline error markers; this holds in
both the direct in-memory path and the database worker path.  The job
ends `failed` only when an exception escapes the per-file loop
altogether. -/
theorem C3_theorem (l : List (String × String)) (hl : l ≠ [])
    (j : Job) (wouts : List (String × String)) (hw : wouts ≠ [])
    (render : String → Except String String) :
    (process_async_final (l.map failFile)).status = "completed" ∧
    (process_async_final (l.map failFile)).result
      = some (joinSep "\n\n" (l.map (fun p => directMarker p.1 p.2))) ∧
    (process_job_worker_files_final j (wouts.map errOut) render).status = "completed" ∧
    (process_job_worker_files_final j (wouts.map errOut) render).result_text
      = some (joinSep "\n\n" (wouts.map (fun p => workerMarker p.2))) := by
  have hmap : process_async_transcriptions (l.map failFile)
      = l.map (fun p => directMarker p.1 p.2) := transcriptions_failFiles l
  have hnil : process_async_transcriptions (l.map failFile) ≠ [] := by
    rw [hmap]
    simpa using hl
  refine ⟨rfl, ?_, rfl, ?_⟩
  · show some (process_async_result_text (l.map failFile)) = _
    have hif : process_async_result_text (l.map failFile)
        = joinSep "\n\n" (process_async_transcriptions (l.map failFile)) := by
      simp [process_async_result_text, List.isEmpty_eq_false.mpr hnil]
    rw [hif, hmap]
  · have hne : (wouts.map errOut) ≠ [] := by simpa using hw
    simp [process_job_worker_files_final, workerStart, List.isEmpty_eq_false.mpr hne,
      workerTranscriptions_errOuts]

/-- C3 (witness).  Instantiation of `C3_theorem` at a concrete 2-file
direct job and 1-file worker job, all failing. -/
theorem C3_witness :
    (process_async_final
        [failFile ("x.wav", "net down"), failFile ("y.wav", "net down")]).result
      = some (joinSep "\n\n"
          [directMarker "x.wav" "net down", directMarker "y.wav" "net down"]) ∧
    (process_job_worker_files_final (newProcessingJob "transcription" "file" "" ["text"])
        [errOut ("f.wav", "net down")] (fun _ => Except.ok "out.txt")).status = "completed" := by
  have h := C3_theorem [("x.wav", "net down"), ("y.wav", "net down")] (by decide)
    (newProcessingJob "transcription" "file" "" ["text"])
    [("f.wav", "net down")] (by decide) (fun _ => Except.ok "out.txt")
  exact ⟨h.2.1, h.2.2.1⟩

/-- C4 (confirmed).  For a YouTube job whose transcript extraction fails
(while extraction was attempted, i.e. `pullTranscript` is on), both
YouTube execution paths invoke the media-download fallback exactly once —
even though audio transcription was not requested by the caller
(`process_youtube_directly` hard-codes `transcribe_audio = False` at
`app.py` line 471 and re-enables it at line 487; `process_youtube_async`
takes the download branch unconditionally on extraction failure, lines
687-705) — and the fallback's transcription (or its failure) becomes the
job's result. -/
theorem C4_theorem (m : String) (d : DownloadResult) (w : Except String String)
    (d2 w2 : Except String String) :
    (process_youtube_directly true (TResult.err m) d w).downloadCalls = 1 ∧
    (process_youtube_async_run (TResult.err m) d2 w2).2 = 1 ∧
    (∀ p t, d = DownloadResult.fileAt p → w = Except.ok t →
      (process_youtube_directly true (TResult.err m) d w).result = Except.ok t) ∧
    (∀ e, d = DownloadResult.raised e →
      (process_youtube_directly true (TResult.err m) d w).result
        = Except.error (ytFallbackFailMsg e)) ∧
    (∀ p e, d = DownloadResult.fileAt p → w = Except.error e →
      (process_youtube_directly true (TResult.err m) d w).result
        = Except.error (ytFallbackFailMsg e)) ∧
    (∀ p t, d2 = Except.ok p → w2 = Except.ok t →
      (process_youtube_async_run (TResult.err m) d2 w2).1.status = "completed" ∧
      (process_youtube_async_run (TResult.err m) d2 w2).1.result = some t) ∧
    (∀ e, d2 = Except.error e →
      (process_youtube_async_run (TResult.err m) d2 w2).1.status = "failed" ∧
      (process_youtube_async_run (TResult.err m) d2 w2).1.message = e) := by
  refine ⟨?_, ?_, ?_, ?_, ?_, ?_, ?_⟩
  · cases d with
    | fileAt p => cases w <;> rfl
    | missing => rfl
    | raised e => rfl
  · cases d2 with
    | ok p => cases w2 <;> rfl
    | error e => rfl
  · rintro p t rfl rfl
    rfl
  · rintro e rfl
    rfl
  · rintro p e rfl rfl
    rfl
  · rintro p t rfl rfl
    exact ⟨rfl, rfl⟩
  · rintro e rfl
    exact ⟨rfl, rfl⟩

/-- C4 (witness).  Instantiation of `C4_theorem` where the download
succeeds and Whisper returns text in both paths. -/
theorem C4_witness :
    (process_youtube_directly true (TResult.err "Subtitles are disabled for this video")
        (DownloadResult.fileAt "/tmp/vid.mp4") (Except.ok "spoken text")).downloadCalls = 1 ∧
    (process_youtube_directly true (TResult.err "Subtitles are disabled for this video")
        (DownloadResult.fileAt "/tmp/vid.mp4") (Except.ok "spoken text")).result
      = Except.ok "spoken text" ∧
    (process_youtube_async_run (TResult.err "Subtitles are disabled for this video")
        (Except.ok "/tmp/vid2.mp4") (Except.ok "other spoken text")).1.status = "completed" := by
  have h := C4_theorem "Subtitles are disabled for this video"
    (DownloadResult.fileAt "/tmp/vid.mp4") (Except.ok "spoken text")
    (Except.ok "/tmp/vid2.mp4") (Except.ok "other spoken text")
  exact ⟨h.1, h.2.2.1 "/tmp/vid.mp4" "spoken text" rfl rfl,
    (h.2.2.2.2.2.1 "/tmp/vid2.mp4" "other spoken text" rfl rfl).1⟩

/-- C5 (confirmed).  For a YouTube job whose transcript extraction
succeeds, neither YouTube execution path ever calls the media-download
collaborator (call count 0), the result text is the extracted transcript
unchanged (so no audio-transcription provenance tag is attached to it),
and the only provenance tag recorded is `YouTube Transcript (<language>)`
(`app.py` lines 479-482 and 683-686). -/
theorem C5_theorem (t lang : String) (gen : Bool) (d : DownloadResult)
    (w : Except String String) (d2 w2 : Except String String) :
    (process_youtube_directly true (TResult.ok t lang gen) d w).downloadCalls = 0 ∧
    (process_youtube_directly true (TResult.ok t lang gen) d w).result = Except.ok t ∧
    (process_youtube_directly true (TResult.ok t lang gen) d w).sources
      = ["YouTube Transcript (" ++ lang ++ ")"] ∧
    (process_youtube_async_run (TResult.ok t lang gen) d2 w2).2 = 0 ∧
    (process_youtube_async_run (TResult.ok t lang gen) d2 w2).1.status = "completed" ∧
    (process_youtube_async_run (TResult.ok t lang gen) d2 w2).1.result = some t := by
  exact ⟨rfl, rfl, rfl, rfl, rfl, rfl⟩

/-- C6 (counterexample).  The claim that the failed file's segment is "an
inline error marker naming that file" is false for the database worker
path: its marker (`app.py` line 1007) is the generic
`Error processing file: <error>`, which does not mention the file.  A
3-file worker job whose 2nd file (`/tmp/clip2.wav`) fails with `boom`
produces the segment `Error processing file: boom`, which does not
contain `clip2.wav`, while still completing with 3 segments. -/
theorem C6_counterexample :
    workerTranscriptions
        [("/tmp/clip1.wav", Except.ok "alpha"),
         ("/tmp/clip2.wav", Except.error "boom"),
         ("/tmp/clip3.wav", Except.ok "gamma")]
      = ["alpha", "Error processing file: boom", "gamma"] ∧
    (process_job_worker_files_final (newProcessingJob "transcription" "file" "" ["text"])
        [("/tmp/clip1.wav", Except.ok "alpha"),
         ("/tmp/clip2.wav", Except.error "boom"),
         ("/tmp/clip3.wav", Except.ok "gamma")]
        (fun _ => Except.ok "out.txt")).status = "completed" ∧
    strContains "Error processing file: boom" "clip2.wav" = false := by
  exact ⟨rfl, rfl, by decide⟩

/-- C6 (amended).  A multi-file transcription job with exactly one
failing file ends `completed` and its aggregate is exactly N segments,
the failed file's one being an inline error marker; the marker names the
failing file in the direct in-memory path (`Error processing <name>:
<error>`, `app.py` line 433) but is the generic `Error processing file:
<error>` in the database worker path (`app.py` line 1007). -/
theorem C6_theorem (pre post : List (String × String)) (nm err : String)
    (wpre wpost : List (String × String)) (wpath werr : String)
    (j : Job) (render : String → Except String String) :
    process_async_transcriptions (pre.map trFile ++ failFile (nm, err) :: post.map trFile)
      = pre.map Prod.snd ++ directMarker nm err :: post.map Prod.snd ∧
    (process_async_transcriptions (pre.map trFile ++ failFile (nm, err) :: post.map trFile)).length
      = (pre.map trFile ++ failFile (nm, err) :: post.map trFile).length ∧
    (process_async_final (pre.map trFile ++ failFile (nm, err) :: post.map trFile)).status
      = "completed" ∧
    strContains (directMarker nm err) nm = true ∧
    workerTranscriptions (wpre.map okOut ++ (wpath, Except.error werr) :: wpost.map okOut)
      = wpre.map Prod.snd ++ workerMarker werr :: wpost.map Prod.snd ∧
    (process_job_worker_files_final j
        (wpre.map okOut ++ (wpath, Except.error werr) :: wpost.map okOut) render).status
      = "completed" := by
  have hdirect : process_async_transcriptions
      (pre.map trFile ++ failFile (nm, err) :: post.map trFile)
      = pre.map Prod.snd ++ directMarker nm err :: post.map Prod.snd := by
    rw [transcriptions_append, transcriptions_cons, transcriptions_trFiles,
      transcriptions_trFiles]
    rfl
  refine ⟨hdirect, ?_, rfl, ?_, ?_, rfl⟩
  · rw [hdirect]
    simp
  · show strContains ("Error processing " ++ nm ++ ": " ++ err) nm = true
    have hassoc : "Error processing " ++ nm ++ ": " ++ err
        = "Error processing " ++ nm ++ (": " ++ err) := by
      rw [String.append_assoc]
    rw [hassoc]
    exact strContains_middle "Error processing " nm (": " ++ err)
  · simp only [workerTranscriptions, List.map_append, List.map_cons,
      workerTranscriptions_okOuts]
    rw [← workerTranscriptions_okOuts wpre, ← workerTranscriptions_okOuts wpost]
    rfl

/-- C7 (counterexample).  The claim "status `failed` implies the
job-status endpoint returns a non-empty `error_message`" is false for
in-memory jobs: the endpoint hard-codes `error_message: None` for them
(`app.py` line 822).  A direct job failed by the top-level handler is
reported as `failed` with `error_message = None`. -/
theorem C7_counterexample :
    (api_job_status_mem (process_async_catch initialDirectRecord "disk full") "").status
      = "failed" ∧
    (api_job_status_mem (process_async_catch initialDirectRecord "disk full") "").error_message
      = none := by
  exact ⟨rfl, rfl⟩

/-- C7 (amended).  For database-backed jobs the claim holds: the worker's
recovery handler stores the exception text in `error_message` and the
endpoint returns it (`app.py` lines 1199-1200 and 853).  For in-memory
jobs the endpoint always returns `error_message = None`; the failure text
instead reaches the caller through `status_message`, which the handler
sets to `Error: <exception text>` and which is therefore never empty. -/
theorem C7_theorem (p : ProgressRecord) (e durationInfo : String) (jr : Job) :
    (api_job_status_mem (process_async_catch p e) durationInfo).error_message = none ∧
    (api_job_status_mem (process_async_catch p e) durationInfo).status = "failed" ∧
    (api_job_status_mem (process_async_catch p e) durationInfo).status_message
      = "Error: " ++ e ++ durationInfo ∧
    (api_job_status_mem (process_async_catch p e) durationInfo).status_message ≠ "" ∧
    (api_job_status_db (worker_recover (Except.error (e, jr)) true)).status = "failed" ∧
    (api_job_status_db (worker_recover (Except.error (e, jr)) true)).error_message = some e := by
  refine ⟨rfl, rfl, rfl, ?_, rfl, rfl⟩
  show "Error: " ++ e ++ durationInfo ≠ ""
  exact string_append_ne_empty_left _ _
    (string_append_ne_empty_left _ _ (by decide))

/-- C8 (counterexample).  The claim "no exception can leave the job's
status permanently at `processing`" is false for the database worker: its
recovery handler (`app.py` lines 1196-1201) itself performs database
operations, and if that recovery commit fails the exception escapes the
thread and the job record keeps its last committed state.  A TTS job
whose TTS collaborator raises after the progress-40 commit, with the
recovery commit failing, ends with stored status `processing` and no
error message. -/
theorem C8_counterexample :
    (process_job_worker_tts_run (newProcessingJob "tts" "text" "hello" ["mp3"])
        (Except.error "TTS engine crashed") (fun _ => Except.error "unused") false).status
      = "processing" ∧
    (process_job_worker_tts_run (newProcessingJob "tts" "text" "hello" ["mp3"])
        (Except.error "TTS engine crashed") (fun _ => Except.error "unused") false).error_message
      = none := by
  exact ⟨rfl, rfl⟩

/-- C8 (amended).  Every dispatched execution unit wraps its body in a
top-level handler.  The in-memory workers always convert an escaping
exception into status `failed` with the error text in the message
(`process_async` at `app.py` lines 445-448; `process_youtube_async` at
lines 706-709, shown here through the failure arms of its run function).
The database worker also converts it to `failed` with `error_message`
set, provided its recovery write succeeds; when that write fails the job
keeps its last committed status (see the counterexample). -/
theorem C8_theorem (st : ProgressRecord) (e m : String) (jr : Job)
    (w2 : Except String String) :
    (process_async_catch st e).status = "failed" ∧
    (process_async_catch st e).message = "Error: " ++ e ∧
    (process_youtube_async_run (TResult.err m) (Except.error e) w2).1.status = "failed" ∧
    (process_youtube_async_run (TResult.err m) (Except.error e) w2).1.message = e ∧
    (worker_recover (Except.error (e, jr)) true).status = "failed" ∧
    (worker_recover (Except.error (e, jr)) true).error_message = some e := by
  exact ⟨rfl, rfl, rfl, rfl, rfl, rfl⟩

/-- C9 (counterexample).  The claim "the job's record is created at
submission time with status `pending`" is false for the in-memory
progress records: `process_audio_files_directly` inserts its record with
status `processing` already at submission (`app.py` lines 321-329),
before the worker thread is even started at line 451. -/
theorem C9_counterexample :
    initialDirectRecord.status = "processing" ∧
    initialDirectRecord.status ≠ "pending" := by
  exact ⟨rfl, by decide⟩

/-- C9 (amended).  Database-backed job records are created at submission
with status `pending` and progress 0 (`app.py` lines 606-614 and 741-748;
`models.py` lines 28-31) and move to `processing` when the worker starts
(`app.py` lines 964-965); the in-memory progress records of the direct
and YouTube paths are instead created with status `processing` (and
progress 0) already at submission time. -/
theorem C9_theorem (jt it itext : String) (formats : List String) (j : Job) :
    (newProcessingJob jt it itext formats).status = "pending" ∧
    (newProcessingJob jt it itext formats).progress_percentage = 0 ∧
    (workerStart j).status = "processing" ∧
    initialDirectRecord.status = "processing" ∧
    initialDirectRecord.progress = 0 ∧
    initialYoutubeRecord.status = "processing" ∧
    initialYoutubeRecord.progress = 0 := by
  exact ⟨rfl, rfl, rfl, rfl, rfl, rfl, rfl⟩

/-- C10 (counterexample).  The claim that a `success = False` result
always carries a non-empty `error` string is false: the catch-all at
`utils/youtube_processor.py` line 109 returns `str(e)`, and a caught
exception whose text is empty (e.g. one raised without arguments) yields
`{'success': False, 'error': ''}`. -/
theorem C10_counterexample :
    get_youtube_transcript (some "dQw4w9WgXcQ") (TranscriptLookup.raised "")
      = TResult.err "" := rfl

/-- C10 (amended).  `get_youtube_transcript` never raises (its whole body
sits inside `try/except`, so the embedding is a total function) and
always returns one of the two dict shapes.  Whenever `success` is
`False`, the `error` string is either one of two fixed non-empty
messages or exactly the caught exception's text — so it is non-empty
except when that exception text is itself empty.  Whenever `success` is
`True`, the result carries the fetched transcript's text, language code
and generated flag. -/
theorem C10_theorem (videoId : Option String) (lookup : TranscriptLookup) :
    (∀ m, get_youtube_transcript videoId lookup = TResult.err m →
      m ≠ "" ∨ lookup = TranscriptLookup.raised m) ∧
    (∀ t lang gen, get_youtube_transcript videoId lookup = TResult.ok t lang gen →
      ∃ entries, lookup = TranscriptLookup.found lang gen entries
        ∧ t = cleanTranscriptText entries) := by
  cases videoId with
  | none =>
    constructor
    · intro m hm
      left
      have : m = "Invalid YouTube URL" := by
        have := hm
        simp [get_youtube_transcript] at this
        exact this.symm
      rw [this]
      decide
    · intro t lang gen hm
      simp [get_youtube_transcript] at hm
  | some v =>
    cases lookup with
    | raised e =>
      constructor
      · intro m hm
        right
        have : e = m := by
          have := hm
          simp [get_youtube_transcript] at this
          exact this
        rw [this]
      · intro t lang gen hm
        simp [get_youtube_transcript] at hm
    | noneAvailable =>
      constructor
      · intro m hm
        left
        have : m = "No transcript available for this video" := by
          have := hm
          simp [get_youtube_transcript] at this
          exact this.symm
        rw [this]
        decide
      · intro t lang gen hm
        simp [get_youtube_transcript] at hm
    | found lc gen entries =>
      constructor
      · intro m hm
        simp [get_youtube_transcript] at hm
      · intro t lang g hm
        simp [get_youtube_transcript] at hm
        exact ⟨entries, by rw [hm.2.1, hm.2.2], hm.1.symm⟩

/-- C10 (witness).  Instantiation of `C10_theorem` at the
no-transcript-available outcome. -/
theorem C10_witness :
    "No transcript available for this video" ≠ "" ∨
      TranscriptLookup.noneAvailable
        = TranscriptLookup.raised "No transcript available for this video" :=
  (C10_theorem (some "dQw4w9WgXcQ") TranscriptLookup.noneAvailable).1
    "No transcript available for this video" rfl

/-- C7 (witness).  Instantiation of `C7_theorem` at a concrete failed
in-memory record and a concrete recovered worker job. -/
theorem C7_witness :
    (api_job_status_db (worker_recover (Except.error ("download failed",
        newProcessingJob "transcription" "youtube" "" ["text"])) true)).error_message
      = some "download failed" ∧
    (api_job_status_mem (process_async_catch initialYoutubeRecord "download failed") "").status_message
      ≠ "" := by
  have h := C7_theorem initialYoutubeRecord "download failed" ""
    (newProcessingJob "transcription" "youtube" "" ["text"])
  exact ⟨h.2.2.2.2.2, h.2.2.2.1⟩
